import Mathlib

/-!
# Button objects (IPSO 3311 digital input) of the WiFire firmware

A shallow embedding of `firmware/src/resources/button_object.c`:
the two static arrays `buttons` and `buttonInputs`, and the three entry points
`ButtonObject_Create`, `ButtonObject_Update` and `ButtonObject_Input`.

Conventions of the embedding

* the static arrays have `BUTTON_INSTANCES` cells and are functions on
  `Fin BUTTON_INSTANCES`; an access whose index is outside the array is a fault
  and makes the entry point return `none`;
* `uint` values (ticks, `StartTime`) are naturals taken modulo `UINT_MOD`;
* `AwaInteger` values (`Counter`, `DebouncePeriod`) are integers, `Counter++`
  wraps to the signed 64-bit range;
* calls into the Awa static client and the debug log are recorded in traces.
-/

namespace Firmware

/-! ## Constants and machine arithmetic -/

/-- Number of button instances, `#define BUTTON_INSTANCES 2`. -/
abbrev BUTTON_INSTANCES : Nat := 2

/-- Default threshold, `#define DEFAULT_DEBOUNCE_TIME_MS 100`. -/
abbrev DEFAULT_DEBOUNCE_TIME_MS : Int := 100

/-- Modelled from the spec: the width of the C type `uint` used for ticks
(the spec: "unsigned integer, milliseconds, monotonic, wraps at its width");
the target is a 32-bit MCU, so tick arithmetic is modulo `2^32`. -/
abbrev UINT_MOD : Nat := 4294967296

/-- Modelled from the spec: `AwaInteger` is declared by the Awa headers, which
are not part of this source tree; it is a signed 64-bit integer, and the spec
says the counter "wraps per its width". This is the largest value. -/
abbrev AWA_INTEGER_MAX : Int := 9223372036854775807

/-- Reduction of an integer to the signed 64-bit range (two's complement). -/
def wrapInt64 (x : Int) : Int :=
  (x + 9223372036854775808) % 18446744073709551616 - 9223372036854775808

/-- Subtraction of two `uint` values, `a - b` in C: the result is taken
modulo `UINT_MOD`. -/
def uintSub (a b : Nat) : Nat :=
  (a % UINT_MOD + (UINT_MOD - b % UINT_MOD)) % UINT_MOD

/-- Object id of the IPSO digital input object (the struct comment: 3311). -/
abbrev IPSO_DIGITAL_INPUT_OBJECT : Nat := 3311

/-- Resource id of `State` (the struct comment: 5500). -/
abbrev IPSO_DIGITAL_INPUT_STATE : Nat := 5500

/-- Resource id of `Counter` (the struct comment: 5501). -/
abbrev IPSO_DIGITAL_INPUT_COUNTER : Nat := 5501

/-- Resource id of `DebouncePeriod` (the struct comment: 5503). -/
abbrev IPSO_DIGITAL_INPUT_DEBOUNCE_PERIOD : Nat := 5503

/-! ## Data model -/

/-- The struct `ButtonObject`: the fields mirrored by the registry. -/
structure ButtonObject where
  State : Bool
  Counter : Int
  DebouncePeriod : Int
deriving DecidableEq, Repr

/-- The struct `ButtonInput`: the debounce engine of one channel. -/
structure ButtonInput where
  CurrentState : Bool
  DebouncedState : Bool
  StartTime : Nat
deriving DecidableEq, Repr

/-- The static storage of the file: `buttons` and `buttonInputs`. -/
@[ext]
structure Globals where
  buttons : Fin BUTTON_INSTANCES → ButtonObject
  buttonInputs : Fin BUTTON_INSTANCES → ButtonInput

/-- Assignment to `buttons[index]`. -/
def setButton (g : Globals) (index : Fin BUTTON_INSTANCES) (b : ButtonObject) : Globals :=
  { g with buttons := Function.update g.buttons index b }

/-- Assignment to `buttonInputs[index]`. -/
def setInput (g : Globals) (index : Fin BUTTON_INSTANCES) (b : ButtonInput) : Globals :=
  { g with buttonInputs := Function.update g.buttonInputs index b }

/-- Array indexing with a C `int`: the cell when the index is inside the array,
`none` when it is outside (negative or `≥ BUTTON_INSTANCES`). -/
def arrayIndex (i : Int) : Option (Fin BUTTON_INSTANCES) :=
  if h : 0 ≤ i ∧ i < (BUTTON_INSTANCES : Int) then some ⟨i.toNat, by omega⟩ else none

/-! ## The external collaborators, as traces -/

/-- Result of a call into the Awa static client. -/
inductive AwaError where
  | Success
  | Failure (code : Nat)
deriving DecidableEq, Repr

/-- The `AwaResourceType` values used by this file. -/
inductive AwaResourceType where
  | Boolean
  | Integer
deriving DecidableEq, Repr

/-- The `AwaResourceOperations` values used by this file. -/
inductive AwaResourceOperations where
  | ReadOnly
  | ReadWrite
deriving DecidableEq, Repr

/-- The field of `buttons[0]` a resource is bound to. -/
inductive ButtonField where
  | State
  | Counter
  | DebouncePeriod
deriving DecidableEq, Repr

/-- The registration calls that `ButtonObject_Create` makes. -/
inductive AwaCall where
  | DefineObject (objectID : Nat) (name : String) (minInstances maxInstances : Nat)
  | DefineResource (objectID resourceID : Nat) (name : String) (type : AwaResourceType)
      (minInstances maxInstances : Nat) (operations : AwaResourceOperations)
  | SetResourceStorageWithPointer (objectID resourceID : Nat) (field : ButtonField)
  | CreateObjectInstance (objectID objectInstance : Nat)
  | CreateResource (objectID objectInstance resourceID : Nat)
deriving DecidableEq, Repr

/-- The registry as the code sees it: what a call returns, given the calls
made before it. -/
abbrev AwaRegistry := List AwaCall → AwaCall → AwaError

/-- One call into the registry: the call is appended to the trace and the
registry's answer is returned. -/
def awaInvoke (awa : AwaRegistry) (call : AwaCall) (trace : List AwaCall) :
    AwaError × List AwaCall :=
  (awa trace call, trace ++ [call])

/-- What `ButtonObject_Update` does to the outside world. -/
inductive Event where
  | Log (buttonNumber : Nat) (isOn : Bool)
  | ResourceChanged (objectID : Nat) (objectInstance : Fin BUTTON_INSTANCES) (resourceID : Nat)
deriving DecidableEq, Repr

/-! ## The entry points -/

/-- The body of the instance loop of `ButtonObject_Create` (lines 75-79). -/
def ButtonObject_Create_body (awa : AwaRegistry) (inst : Fin BUTTON_INSTANCES)
    (p : Globals × List AwaCall) : Globals × List AwaCall :=
  let g := p.1
  let r1 := awaInvoke awa (.CreateObjectInstance IPSO_DIGITAL_INPUT_OBJECT inst) p.2
  let r2 := awaInvoke awa
    (.CreateResource IPSO_DIGITAL_INPUT_OBJECT inst IPSO_DIGITAL_INPUT_STATE) r1.2
  let r3 := awaInvoke awa
    (.CreateResource IPSO_DIGITAL_INPUT_OBJECT inst IPSO_DIGITAL_INPUT_COUNTER) r2.2
  let r4 := awaInvoke awa
    (.CreateResource IPSO_DIGITAL_INPUT_OBJECT inst IPSO_DIGITAL_INPUT_DEBOUNCE_PERIOD) r3.2
  (setButton g inst { g.buttons inst with DebouncePeriod := DEFAULT_DEBOUNCE_TIME_MS }, r4.2)

/-- The function `ButtonObject_Create` (lines 58-81). It returns `void`: the
result is the new storage and the trace of registry calls. The value each
registry call returns is dropped, as in the source. -/
def ButtonObject_Create (awa : AwaRegistry) (_g : Globals) : Globals × List AwaCall :=
  let r1 := awaInvoke awa
    (.DefineObject IPSO_DIGITAL_INPUT_OBJECT "Button" 0 BUTTON_INSTANCES) []
  let r2 := awaInvoke awa
    (.DefineResource IPSO_DIGITAL_INPUT_OBJECT IPSO_DIGITAL_INPUT_STATE "State"
      .Boolean 0 1 .ReadOnly) r1.2
  let r3 := awaInvoke awa
    (.SetResourceStorageWithPointer IPSO_DIGITAL_INPUT_OBJECT IPSO_DIGITAL_INPUT_STATE
      .State) r2.2
  let r4 := awaInvoke awa
    (.DefineResource IPSO_DIGITAL_INPUT_OBJECT IPSO_DIGITAL_INPUT_COUNTER "Counter"
      .Integer 0 1 .ReadOnly) r3.2
  let r5 := awaInvoke awa
    (.SetResourceStorageWithPointer IPSO_DIGITAL_INPUT_OBJECT IPSO_DIGITAL_INPUT_COUNTER
      .Counter) r4.2
  let r6 := awaInvoke awa
    (.DefineResource IPSO_DIGITAL_INPUT_OBJECT IPSO_DIGITAL_INPUT_DEBOUNCE_PERIOD "Debounce"
      .Integer 0 1 .ReadWrite) r5.2
  let r7 := awaInvoke awa
    (.SetResourceStorageWithPointer IPSO_DIGITAL_INPUT_OBJECT
      IPSO_DIGITAL_INPUT_DEBOUNCE_PERIOD .DebouncePeriod) r6.2
  -- memset (&buttons, 0, ...); memset (&buttonInputs, 0, ...)
  let zeroed : Globals :=
    { buttons := fun _ => { State := false, Counter := 0, DebouncePeriod := 0 },
      buttonInputs := fun _ => { CurrentState := false, DebouncedState := false, StartTime := 0 } }
  (List.finRange BUTTON_INSTANCES).foldl
    (fun p inst => ButtonObject_Create_body awa inst p) (zeroed, r7.2)

/-- The body of the loop of `ButtonObject_Update` (lines 89-96). -/
def ButtonObject_Update_body (index : Fin BUTTON_INSTANCES)
    (p : Globals × List Event) : Globals × List Event :=
  let g := p.1
  if (g.buttons index).State != (g.buttonInputs index).DebouncedState then
    let g1 := setButton g index
      { g.buttons index with State := (g.buttonInputs index).DebouncedState }
    let g2 :=
      if (g1.buttons index).State then
        setButton g1 index
          { g1.buttons index with Counter := wrapInt64 ((g1.buttons index).Counter + 1) }
      else g1
    (g2, p.2 ++ [Event.Log (index.val + 1) (g2.buttons index).State,
                 Event.ResourceChanged IPSO_DIGITAL_INPUT_OBJECT index IPSO_DIGITAL_INPUT_STATE])
  else p

/-- The function `ButtonObject_Update` (lines 83-98): the new storage and the
events issued, in order. -/
def ButtonObject_Update (g : Globals) : Globals × List Event :=
  (List.finRange BUTTON_INSTANCES).foldl
    (fun p index => ButtonObject_Update_body index p) (g, [])

/-- The function `ButtonObject_Input` (lines 100-118). `tickStart` is the value
`CreatorTimer_GetTickCount` returns at line 106 and `tickNow` the value it
returns at line 112. The result is `none` when the call indexes `buttonInputs`
outside the array. -/
def ButtonObject_Input (tickStart tickNow : Nat) (buttonID : Int) (inputState : Bool)
    (g : Globals) : Option Globals :=
  if buttonID < (BUTTON_INSTANCES : Int) then
    match arrayIndex buttonID with
    | none => none
    | some i =>
      let g1 :=
        if (g.buttonInputs i).CurrentState != inputState then
          setInput g i
            { g.buttonInputs i with
              StartTime := tickStart % UINT_MOD, CurrentState := inputState }
        else g
      let g2 :=
        if (g1.buttonInputs i).DebouncedState != inputState then
          if (g1.buttons i).DebouncePeriod
              ≤ ((uintSub tickNow (g1.buttonInputs i).StartTime : Nat) : Int) then
            setInput g1 i { g1.buttonInputs i with DebouncedState := inputState }
          else g1
        else g1
      some g2
  else some g

/-! ## Harness: runs of calls and external writes -/

/-- A run of `ButtonObject_Input` calls on one button, one call per sample
`(tick, level)`, in order; within a call both timer reads return `tick`. A
fault in any call makes the run fault. -/
def inputRun (buttonID : Int) : List (Nat × Bool) → Globals → Option Globals
  | [], g => some g
  | sample :: rest, g =>
    (ButtonObject_Input sample.1 sample.1 buttonID sample.2 g).bind (inputRun buttonID rest)

/-- The samples of the calls number `0` to `n - 1` of a stream of calls whose
ticks are `tick` and whose levels are `level`. -/
def samples (tick : Nat → Nat) (level : Nat → Bool) (n : Nat) : List (Nat × Bool) :=
  (List.range n).map (fun j => (tick j, level j))

/-- An external write of the registry to the read-write resource
`DebouncePeriod` of one instance, through the storage pointer bound at line 67. -/
def writeDebouncePeriod (g : Globals) (index : Fin BUTTON_INSTANCES) (value : Int) : Globals :=
  setButton g index { g.buttons index with DebouncePeriod := value }

/-- The notifications among the events: the instances for which
`AwaStaticClient_ResourceChanged` was called, in order. -/
def notifications : List Event → List (Fin BUTTON_INSTANCES)
  | [] => []
  | Event.ResourceChanged _ inst _ :: rest => inst :: notifications rest
  | Event.Log _ _ :: rest => notifications rest

/-- The storage with every byte zero, as static storage is at start-up. -/
def zeroGlobals : Globals :=
  { buttons := fun _ => { State := false, Counter := 0, DebouncePeriod := 0 },
    buttonInputs := fun _ => { CurrentState := false, DebouncedState := false, StartTime := 0 } }

/-- A registry that accepts every call. -/
def awaAccept : AwaRegistry := fun _ _ => AwaError.Success

/-- A registry that rejects every call. -/
def awaReject : AwaRegistry := fun _ _ => AwaError.Failure 1

/-- The storage after `ButtonObject_Create` at start-up. -/
def startGlobals : Globals := (ButtonObject_Create awaAccept zeroGlobals).1

/-- A storage in which button 0 is about to be published as active while its
counter holds the largest `AwaInteger`. -/
def overflowGlobals : Globals :=
  { buttons := fun j =>
      if j = 0 then { State := false, Counter := AWA_INTEGER_MAX, DebouncePeriod := 100 }
      else { State := false, Counter := 0, DebouncePeriod := 100 },
    buttonInputs := fun j =>
      if j = 0 then { CurrentState := true, DebouncedState := true, StartTime := 0 }
      else { CurrentState := false, DebouncedState := false, StartTime := 0 } }

/-- A storage with the given debounced level on button 0 and everything else
as `ButtonObject_Create` leaves it but for the published state and counter of
button 0. -/
def pressGlobals (published : Bool) (counter : Int) (debounced : Bool) : Globals :=
  { buttons := fun j =>
      if j = 0 then { State := published, Counter := counter, DebouncePeriod := 100 }
      else { State := false, Counter := 0, DebouncePeriod := 100 },
    buttonInputs := fun j =>
      if j = 0 then { CurrentState := debounced, DebouncedState := debounced, StartTime := 0 }
      else { CurrentState := false, DebouncedState := false, StartTime := 0 } }

/-- A storage in which button 0 holds the raw level `true`, not yet accepted,
since a tick ten short of the wraparound of the tick counter. -/
def wrapGlobals : Globals :=
  { buttons := fun _ => { State := false, Counter := 0, DebouncePeriod := 100 },
    buttonInputs := fun j =>
      if j = 0 then { CurrentState := true, DebouncedState := false, StartTime := 4294967286 }
      else { CurrentState := false, DebouncedState := false, StartTime := 0 } }

/-- The registration calls of `ButtonObject_Create`, in the order of lines
61-78. -/
def registrationCalls : List AwaCall :=
  [ AwaCall.DefineObject 3311 "Button" 0 2,
    AwaCall.DefineResource 3311 5500 "State" AwaResourceType.Boolean 0 1
      AwaResourceOperations.ReadOnly,
    AwaCall.SetResourceStorageWithPointer 3311 5500 ButtonField.State,
    AwaCall.DefineResource 3311 5501 "Counter" AwaResourceType.Integer 0 1
      AwaResourceOperations.ReadOnly,
    AwaCall.SetResourceStorageWithPointer 3311 5501 ButtonField.Counter,
    AwaCall.DefineResource 3311 5503 "Debounce" AwaResourceType.Integer 0 1
      AwaResourceOperations.ReadWrite,
    AwaCall.SetResourceStorageWithPointer 3311 5503 ButtonField.DebouncePeriod,
    AwaCall.CreateObjectInstance 3311 0,
    AwaCall.CreateResource 3311 0 5500,
    AwaCall.CreateResource 3311 0 5501,
    AwaCall.CreateResource 3311 0 5503,
    AwaCall.CreateObjectInstance 3311 1,
    AwaCall.CreateResource 3311 1 5500,
    AwaCall.CreateResource 3311 1 5501,
    AwaCall.CreateResource 3311 1 5503 ]

/-- One call into the module, or one external write, after
`ButtonObject_Create`: a `ButtonObject_Input` call (both timer reads return
`tick`), a `ButtonObject_Update` call, or a write of the registry to
`DebouncePeriod`, the only resource it may write. -/
inductive Call where
  | Input (tick : Nat) (buttonID : Int) (inputState : Bool)
  | Update
  | WriteDebouncePeriod (index : Fin BUTTON_INSTANCES) (value : Int)
deriving DecidableEq, Repr

/-- The effect of one call on the storage and on the events issued so far;
`none` when the call faults. `ButtonObject_Input` calls neither the registry nor
the log, so it adds no event. -/
def stepCall : Call → Globals × List Event → Option (Globals × List Event)
  | Call.Input tick buttonID inputState, p =>
    (ButtonObject_Input tick tick buttonID inputState p.1).map (fun g => (g, p.2))
  | Call.Update, p =>
    some ((ButtonObject_Update p.1).1, p.2 ++ (ButtonObject_Update p.1).2)
  | Call.WriteDebouncePeriod index value, p =>
    some (writeDebouncePeriod p.1 index value, p.2)

/-- A sequence of calls, in order; a fault ends the run. -/
def runCalls : List Call → Globals × List Event → Option (Globals × List Event)
  | [], p => some p
  | c :: rest, p => (stepCall c p).bind (runCalls rest)

/-- The number of times the events report button `i` as active: each
notification follows the log line that prints the `State` being published, and
this counts the lines of button `i` that print it as on. -/
def activations (i : Fin BUTTON_INSTANCES) : List Event → Nat
  | [] => 0
  | Event.Log buttonNumber isOn :: rest =>
    (if buttonNumber = i.val + 1 ∧ isOn = true then 1 else 0) + activations i rest
  | Event.ResourceChanged _ _ _ :: rest => activations i rest

/-- The relation between the events issued so far and the storage, for
channel `i`: the notifications for `i` number twice the activations reported
for `i`, less one when `State` is set, and `Counter` is the number of
activations reduced to the width of `AwaInteger`. -/
def traceInvariant (i : Fin BUTTON_INSTANCES) (p : Globals × List Event) : Prop :=
  ((notifications p.2).count i : Int)
      = 2 * (activations i p.2 : Int) - (if (p.1.buttons i).State then 1 else 0) ∧
    (p.1.buttons i).Counter = wrapInt64 (activations i p.2 : Int)

instance (i : Fin BUTTON_INSTANCES) (p : Globals × List Event) :
    Decidable (traceInvariant i p) := by
  unfold traceInvariant
  infer_instance

/-- A press and a release of button 0, each held for 100 ticks, with a
reconciliation after each. -/
def pressAndRelease : List Call :=
  [ Call.Input 0 0 true, Call.Input 100 0 true, Call.Update,
    Call.Input 200 0 false, Call.Input 300 0 false, Call.Update ]

/-- A run in which the sampler passes a negative button id: one
`ButtonObject_Input` call for button `-2` at tick 7, then a reconciliation. -/
def negativeIdRun : List Call :=
  [ Call.Input 7 (-2) true, Call.Update ]

/-! ## Basic facts -/

theorem finRange_instances : List.finRange BUTTON_INSTANCES = [0, 1] := rfl

theorem arrayIndex_val (i : Fin BUTTON_INSTANCES) : arrayIndex (i.val : Int) = some i := by
  have h : 0 ≤ (i.val : Int) ∧ (i.val : Int) < (BUTTON_INSTANCES : Int) := by
    constructor <;> omega
  simp [arrayIndex, h]

theorem uintSub_self (t : Nat) : uintSub t (t % UINT_MOD) = 0 := by
  simp only [uintSub, UINT_MOD]
  omega

theorem uintSub_mod_right (a b : Nat) : uintSub a (b % UINT_MOD) = uintSub a b := by
  simp only [uintSub, UINT_MOD]
  omega

theorem uintSub_lt (a b : Nat) : uintSub a b < UINT_MOD := by
  simp only [uintSub, UINT_MOD]
  omega

/-- What one `ButtonObject_Input` call on a valid button does, field by field. -/
theorem ButtonObject_Input_valid (tickStart tickNow : Nat) (i : Fin BUTTON_INSTANCES)
    (L : Bool) (g : Globals) :
    ∃ g2, ButtonObject_Input tickStart tickNow (i.val : Int) L g = some g2 ∧
      g2.buttons = g.buttons ∧
      (∀ j, j ≠ i → g2.buttonInputs j = g.buttonInputs j) ∧
      (g2.buttonInputs i).CurrentState = L ∧
      (g2.buttonInputs i).StartTime =
        (if (g.buttonInputs i).CurrentState = L then (g.buttonInputs i).StartTime
         else tickStart % UINT_MOD) ∧
      (g2.buttonInputs i).DebouncedState =
        (if (g.buttons i).DebouncePeriod ≤ ((uintSub tickNow
              (if (g.buttonInputs i).CurrentState = L then (g.buttonInputs i).StartTime
               else tickStart % UINT_MOD) : Nat) : Int)
         then L else (g.buttonInputs i).DebouncedState) := by
  have hlt : (i.val : Int) < (BUTTON_INSTANCES : Int) := by omega
  refine ⟨_, by simp only [ButtonObject_Input, hlt, if_true, arrayIndex_val]; rfl, ?_⟩
  by_cases h1 : (g.buttonInputs i).CurrentState = L <;>
  by_cases h2 : (g.buttonInputs i).DebouncedState = L <;>
  by_cases h3 : (g.buttons i).DebouncePeriod ≤
      ((uintSub tickNow (g.buttonInputs i).StartTime : Nat) : Int) <;>
  by_cases h4 : (g.buttons i).DebouncePeriod ≤
      ((uintSub tickNow (tickStart % UINT_MOD) : Nat) : Int) <;>
  simp [setInput, Function.update, h1, h2, h3, h4] <;>
  intro j hj hji <;> exact absurd hji hj

theorem inputRun_append (buttonID : Int) (xs ys : List (Nat × Bool)) (g : Globals) :
    inputRun buttonID (xs ++ ys) g = (inputRun buttonID xs g).bind (inputRun buttonID ys) := by
  induction xs generalizing g with
  | nil => simp [inputRun]
  | cons x rest ih =>
    simp only [List.cons_append, inputRun]
    cases h : ButtonObject_Input x.1 x.1 buttonID x.2 g with
    | none => simp
    | some g1 => simp [ih]

theorem inputRun_single (buttonID : Int) (x : Nat × Bool) (g : Globals) :
    inputRun buttonID [x] g = ButtonObject_Input x.1 x.1 buttonID x.2 g := by
  cases h : ButtonObject_Input x.1 x.1 buttonID x.2 g <;> simp [inputRun, h]

theorem samples_succ (tick : Nat → Nat) (level : Nat → Bool) (n : Nat) :
    samples tick level (n + 1) = samples tick level n ++ [(tick n, level n)] := by
  simp [samples, List.range_succ]

/-- One more call after a run that did not fault. -/
theorem inputRun_succ (buttonID : Int) (tick : Nat → Nat) (level : Nat → Bool) (n : Nat)
    (g g1 : Globals) (h : inputRun buttonID (samples tick level n) g = some g1) :
    inputRun buttonID (samples tick level (n + 1)) g
      = ButtonObject_Input (tick n) (tick n) buttonID (level n) g1 := by
  rw [samples_succ, inputRun_append, h, Option.some_bind, inputRun_single]

/-- The storage `ButtonObject_Create` leaves, whatever the registry answers and
whatever the storage held before. -/
theorem ButtonObject_Create_storage (awa : AwaRegistry) (g : Globals) :
    (ButtonObject_Create awa g).1 =
      { buttons := fun _ =>
          { State := false, Counter := 0, DebouncePeriod := DEFAULT_DEBOUNCE_TIME_MS },
        buttonInputs := fun _ =>
          { CurrentState := false, DebouncedState := false, StartTime := 0 } } := by
  ext j : 2
  · fin_cases j <;>
      simp [ButtonObject_Create, ButtonObject_Create_body, finRange_instances, setButton,
        Function.update]
  · fin_cases j <;>
      simp [ButtonObject_Create, ButtonObject_Create_body, finRange_instances, setButton,
        Function.update]

/-- Constant new level: the state of the channel after the calls `0..k`. -/
theorem inputRun_constant_level (g : Globals) (i : Fin BUTTON_INSTANCES) (L : Bool)
    (tick : Nat → Nat) (k : Nat)
    (hraw : (g.buttonInputs i).CurrentState ≠ L)
    (hdeb : (g.buttonInputs i).DebouncedState ≠ L) :
    ∃ g2, inputRun (i.val : Int) (samples tick (fun _ => L) (k + 1)) g = some g2 ∧
      g2.buttons = g.buttons ∧
      (g2.buttonInputs i).CurrentState = L ∧
      (g2.buttonInputs i).StartTime = tick 0 % UINT_MOD ∧
      ((g2.buttonInputs i).DebouncedState = L ↔
        ∃ j, j ≤ k ∧ (g.buttons i).DebouncePeriod ≤ ((uintSub (tick j) (tick 0) : Nat) : Int)) := by
  induction k with
  | zero =>
    obtain ⟨g2, h, hb, _, hc, hs, hd⟩ := ButtonObject_Input_valid (tick 0) (tick 0) i L g
    refine ⟨g2, ?_, hb, hc, ?_, ?_⟩
    · rw [inputRun_succ i.val tick (fun _ => L) 0 g g (by simp [samples, inputRun])]
      exact h
    · rw [hs, if_neg hraw]
    · rw [hd, if_neg hraw, uintSub_mod_right]
      constructor
      · intro h1
        refine ⟨0, le_refl 0, ?_⟩
        by_contra hc2
        rw [if_neg hc2] at h1
        exact hdeb h1
      · rintro ⟨j, hj, hj2⟩
        have : j = 0 := by omega
        subst this
        rw [if_pos hj2]
  | succ k ih =>
    obtain ⟨g1, h1, hb1, hc1, hs1, hd1⟩ := ih
    obtain ⟨g2, h, hb, _, hc, hs, hd⟩ :=
      ButtonObject_Input_valid (tick (k + 1)) (tick (k + 1)) i L g1
    refine ⟨g2, ?_, hb.trans hb1, hc, ?_, ?_⟩
    · rw [inputRun_succ i.val tick (fun _ => L) (k + 1) g g1 h1]
      exact h
    · rw [hs, if_pos hc1, hs1]
    · rw [hd, if_pos hc1, hs1, uintSub_mod_right, hb1]
      constructor
      · intro h2
        by_cases hc2 : (g.buttons i).DebouncePeriod
            ≤ ((uintSub (tick (k + 1)) (tick 0) : Nat) : Int)
        · exact ⟨k + 1, le_refl _, hc2⟩
        · rw [if_neg hc2] at h2
          obtain ⟨j, hj, hj2⟩ := hd1.mp h2
          exact ⟨j, by omega, hj2⟩
      · rintro ⟨j, hj, hj2⟩
        by_cases hc2 : (g.buttons i).DebouncePeriod
            ≤ ((uintSub (tick (k + 1)) (tick 0) : Nat) : Int)
        · rw [if_pos hc2]
        · rw [if_neg hc2]
          apply hd1.mpr
          rcases Nat.lt_or_ge j (k + 1) with hlt | hge
          · exact ⟨j, by omega, hj2⟩
          · have : j = k + 1 := by omega
            subst this
            exact absurd hj2 hc2

/-- Non-decreasing elapsed times: the last one is the largest. -/
theorem elapsed_le_last (tick : Nat → Nat) (k : Nat)
    (hmono : ∀ j, j < k → uintSub (tick j) (tick 0) ≤ uintSub (tick (j + 1)) (tick 0))
    (j : Nat) (hj : j ≤ k) : uintSub (tick j) (tick 0) ≤ uintSub (tick k) (tick 0) := by
  induction k with
  | zero =>
    have : j = 0 := by omega
    subst this
    exact le_refl _
  | succ k ih =>
    rcases Nat.lt_or_ge j (k + 1) with hlt | hge
    · exact le_trans (ih (fun m hm => hmono m (by omega)) (by omega)) (hmono k (by omega))
    · have : j = k + 1 := by omega
      subst this
      exact le_refl _

/-- The storage `ButtonObject_Update` leaves. -/
theorem ButtonObject_Update_storage (g : Globals) :
    (ButtonObject_Update g).1 =
      { buttons := fun i =>
          if (g.buttons i).State = (g.buttonInputs i).DebouncedState then g.buttons i
          else
            { State := (g.buttonInputs i).DebouncedState,
              Counter :=
                if (g.buttonInputs i).DebouncedState then wrapInt64 ((g.buttons i).Counter + 1)
                else (g.buttons i).Counter,
              DebouncePeriod := (g.buttons i).DebouncePeriod },
        buttonInputs := g.buttonInputs } := by
  ext j : 2
  · cases h0 : (g.buttons 0).State <;> cases d0 : (g.buttonInputs 0).DebouncedState <;>
    cases h1 : (g.buttons 1).State <;> cases d1 : (g.buttonInputs 1).DebouncedState <;>
    fin_cases j <;>
    simp [ButtonObject_Update, ButtonObject_Update_body, finRange_instances, setButton,
      Function.update, h0, h1, d0, d1]
  · cases h0 : (g.buttons 0).State <;> cases d0 : (g.buttonInputs 0).DebouncedState <;>
    cases h1 : (g.buttons 1).State <;> cases d1 : (g.buttonInputs 1).DebouncedState <;>
    simp [ButtonObject_Update, ButtonObject_Update_body, finRange_instances, setButton,
      Function.update, h0, h1, d0, d1]

/-- The events `ButtonObject_Update` issues: for each instance whose `State`
differs from its `DebouncedState`, in index order, one log line and one
notification. -/
theorem ButtonObject_Update_events (g : Globals) :
    (ButtonObject_Update g).2 =
      (if (g.buttons 0).State = (g.buttonInputs 0).DebouncedState then []
       else [Event.Log 1 (g.buttonInputs 0).DebouncedState,
             Event.ResourceChanged IPSO_DIGITAL_INPUT_OBJECT 0 IPSO_DIGITAL_INPUT_STATE]) ++
      (if (g.buttons 1).State = (g.buttonInputs 1).DebouncedState then []
       else [Event.Log 2 (g.buttonInputs 1).DebouncedState,
             Event.ResourceChanged IPSO_DIGITAL_INPUT_OBJECT 1 IPSO_DIGITAL_INPUT_STATE]) := by
  cases h0 : (g.buttons 0).State <;> cases d0 : (g.buttonInputs 0).DebouncedState <;>
  cases h1 : (g.buttons 1).State <;> cases d1 : (g.buttonInputs 1).DebouncedState <;>
  simp [ButtonObject_Update, ButtonObject_Update_body, finRange_instances, setButton,
    Function.update, h0, h1, d0, d1]

/-- The notifications of one `ButtonObject_Update` call. -/
theorem ButtonObject_Update_notifications (g : Globals) :
    notifications (ButtonObject_Update g).2 =
      (List.finRange BUTTON_INSTANCES).filter
        (fun i => (g.buttons i).State != (g.buttonInputs i).DebouncedState) := by
  rw [ButtonObject_Update_events, finRange_instances]
  cases h0 : (g.buttons 0).State <;> cases d0 : (g.buttonInputs 0).DebouncedState <;>
  cases h1 : (g.buttons 1).State <;> cases d1 : (g.buttonInputs 1).DebouncedState <;>
  simp [notifications, List.filter, h0, h1, d0, d1]

/-- Alternating levels on a channel whose raw and debounced states are `false`
and whose threshold is positive: the debounced state stays `false`. -/
theorem inputRun_alternating (g : Globals) (i : Fin BUTTON_INSTANCES)
    (tick : Nat → Nat) (level : Nat → Bool) (n : Nat)
    (hT : 1 ≤ (g.buttons i).DebouncePeriod)
    (hraw : (g.buttonInputs i).CurrentState = false)
    (hdeb : (g.buttonInputs i).DebouncedState = false)
    (halt : ∀ j, j + 1 < n → level (j + 1) = !level j) :
    ∃ g2, inputRun (i.val : Int) (samples tick level n) g = some g2 ∧
      g2.buttons = g.buttons ∧
      (g2.buttonInputs i).DebouncedState = false ∧
      (g2.buttonInputs i).CurrentState = (if n = 0 then false else level (n - 1)) := by
  induction n with
  | zero => exact ⟨g, by simp [samples, inputRun], rfl, hdeb, by simp [hraw]⟩
  | succ n ih =>
    obtain ⟨g1, h1, hb1, hd1, hc1⟩ := ih (fun j hj => halt j (by omega))
    obtain ⟨g2, h, hb, _, hc, _, hd⟩ :=
      ButtonObject_Input_valid (tick n) (tick n) i (level n) g1
    refine ⟨g2, ?_, hb.trans hb1, ?_, by simp [hc]⟩
    · rw [inputRun_succ i.val tick level n g g1 h1]
      exact h
    · rw [hd, hd1]
      cases hl : level n with
      | false => simp
      | true =>
        have hr : (g1.buttonInputs i).CurrentState = false := by
          rw [hc1]
          rcases Nat.eq_zero_or_pos n with h0 | hpos
          · simp [h0]
          · have h2 := halt (n - 1) (by omega)
            have h3 : n - 1 + 1 = n := by omega
            rw [h3, hl] at h2
            rw [if_neg (by omega)]
            cases h4 : level (n - 1) with
            | false => rfl
            | true => rw [h4] at h2; exact absurd h2 (by decide)
        have hne : ¬ (g1.buttonInputs i).CurrentState = true := by simp [hr]
        rw [if_neg hne, uintSub_self, hb1]
        have : ¬ (g.buttons i).DebouncePeriod ≤ ((0 : Nat) : Int) := by
          simp only [Nat.cast_zero]
          omega
        rw [if_neg this]

theorem ButtonObject_Update_State (g : Globals) (i : Fin BUTTON_INSTANCES) :
    ((ButtonObject_Update g).1.buttons i).State = (g.buttonInputs i).DebouncedState := by
  rw [ButtonObject_Update_storage]
  by_cases h : (g.buttons i).State = (g.buttonInputs i).DebouncedState <;> simp [h]

theorem ButtonObject_Update_Counter (g : Globals) (i : Fin BUTTON_INSTANCES) :
    ((ButtonObject_Update g).1.buttons i).Counter =
      (if (g.buttons i).State = false ∧ (g.buttonInputs i).DebouncedState = true
       then wrapInt64 ((g.buttons i).Counter + 1) else (g.buttons i).Counter) := by
  rw [ButtonObject_Update_storage]
  cases h : (g.buttons i).State <;> cases d : (g.buttonInputs i).DebouncedState <;> simp [h, d]

theorem ButtonObject_Update_DebouncePeriod (g : Globals) (i : Fin BUTTON_INSTANCES) :
    ((ButtonObject_Update g).1.buttons i).DebouncePeriod = (g.buttons i).DebouncePeriod := by
  rw [ButtonObject_Update_storage]
  by_cases h : (g.buttons i).State = (g.buttonInputs i).DebouncedState <;> simp [h]

theorem ButtonObject_Update_buttonInputs (g : Globals) :
    (ButtonObject_Update g).1.buttonInputs = g.buttonInputs := by
  rw [ButtonObject_Update_storage]

/-- Where `wrapInt64` is the identity. -/
theorem wrapInt64_of_range (x : Int) (h1 : -9223372036854775808 ≤ x)
    (h2 : x ≤ AWA_INTEGER_MAX) : wrapInt64 x = x := by
  simp only [AWA_INTEGER_MAX] at h2
  simp only [wrapInt64]
  omega

/-- The half of invalid-id safety that the guard gives: a button id at or above
`BUTTON_INSTANCES` is ignored. -/
theorem ButtonObject_Input_above_range (tickStart tickNow : Nat) (buttonID : Int) (L : Bool)
    (g : Globals) (h : (BUTTON_INSTANCES : Int) ≤ buttonID) :
    ButtonObject_Input tickStart tickNow buttonID L g = some g := by
  have h1 : ¬ buttonID < (BUTTON_INSTANCES : Int) := by omega
  unfold ButtonObject_Input
  rw [if_neg h1]

/-- The registry calls `ButtonObject_Create` makes do not depend on what the
registry answers. -/
theorem ButtonObject_Create_calls (awa : AwaRegistry) (g : Globals) :
    (ButtonObject_Create awa g).2 = registrationCalls := by
  simp [ButtonObject_Create, ButtonObject_Create_body, finRange_instances, awaInvoke,
    registrationCalls]

/-- A call with a button id that is not negative does not fault, leaves
`buttons` alone and leaves every cell of `buttonInputs` but its own alone. -/
theorem ButtonObject_Input_nonneg (tickStart tickNow : Nat) (buttonID : Int) (L : Bool)
    (g : Globals) (h0 : 0 ≤ buttonID) :
    ∃ g2, ButtonObject_Input tickStart tickNow buttonID L g = some g2 ∧
      g2.buttons = g.buttons ∧
      ∀ j : Fin BUTTON_INSTANCES, (j.val : Int) ≠ buttonID →
        g2.buttonInputs j = g.buttonInputs j := by
  by_cases hlt : buttonID < (BUTTON_INSTANCES : Int)
  · have hn : buttonID.toNat < BUTTON_INSTANCES := by omega
    have he : (((⟨buttonID.toNat, hn⟩ : Fin BUTTON_INSTANCES).val : Nat) : Int) = buttonID := by
      simp only []
      omega
    obtain ⟨g2, h, hb, hj, _⟩ :=
      ButtonObject_Input_valid tickStart tickNow ⟨buttonID.toNat, hn⟩ L g
    rw [he] at h
    refine ⟨g2, h, hb, ?_⟩
    intro j hne
    apply hj
    intro hje
    apply hne
    rw [hje]
    exact he
  · exact ⟨g, ButtonObject_Input_above_range tickStart tickNow buttonID L g (by omega), rfl,
      fun _ _ => rfl⟩

/-- A call with a negative button id faults. -/
theorem ButtonObject_Input_negative (tickStart tickNow : Nat) (buttonID : Int) (L : Bool)
    (g : Globals) (hneg : buttonID < 0) :
    ButtonObject_Input tickStart tickNow buttonID L g = none := by
  have h1 : buttonID < (BUTTON_INSTANCES : Int) := by
    have : ((BUTTON_INSTANCES : Nat) : Int) = 2 := rfl
    omega
  have h2 : ¬ (0 ≤ buttonID ∧ buttonID < (BUTTON_INSTANCES : Int)) := by omega
  unfold ButtonObject_Input arrayIndex
  rw [if_pos h1, dif_neg h2]

/-- A call that does not fault leaves `buttons` alone. -/
theorem ButtonObject_Input_buttons (tickStart tickNow : Nat) (buttonID : Int) (L : Bool)
    (g g2 : Globals) (h : ButtonObject_Input tickStart tickNow buttonID L g = some g2) :
    g2.buttons = g.buttons := by
  rcases lt_or_le buttonID 0 with hneg | h0
  · rw [ButtonObject_Input_negative tickStart tickNow buttonID L g hneg] at h
    exact absurd h (by simp)
  · obtain ⟨g3, h3, hb, _⟩ := ButtonObject_Input_nonneg tickStart tickNow buttonID L g h0
    rw [h3] at h
    cases h
    exact hb

/-- Alternating levels on a channel with a positive threshold, the first of
them changing the raw state unless the channel is settled (raw state equal to
debounced state): the debounced state stays what it was, whatever the ticks. -/
theorem inputRun_alternating_any_ticks (g : Globals) (i : Fin BUTTON_INSTANCES)
    (tick : Nat → Nat) (level : Nat → Bool) (n : Nat)
    (hT : 1 ≤ (g.buttons i).DebouncePeriod)
    (h0 : (g.buttonInputs i).CurrentState = (g.buttonInputs i).DebouncedState ∨
      level 0 ≠ (g.buttonInputs i).CurrentState)
    (halt : ∀ j, j + 1 < n → level (j + 1) = !level j) :
    ∃ g2, inputRun (i.val : Int) (samples tick level n) g = some g2 ∧
      g2.buttons = g.buttons ∧
      (g2.buttonInputs i).DebouncedState = (g.buttonInputs i).DebouncedState ∧
      (g2.buttonInputs i).CurrentState
        = (if n = 0 then (g.buttonInputs i).CurrentState else level (n - 1)) := by
  induction n with
  | zero => exact ⟨g, by simp [samples, inputRun], rfl, rfl, by simp⟩
  | succ n ih =>
    obtain ⟨g1, h1, hb1, hd1, hc1⟩ := ih (fun j hj => halt j (by omega))
    obtain ⟨g2, h, hb, _, hc, _, hd⟩ :=
      ButtonObject_Input_valid (tick n) (tick n) i (level n) g1
    refine ⟨g2, ?_, hb.trans hb1, ?_, by simp [hc]⟩
    · rw [inputRun_succ i.val tick level n g g1 h1]
      exact h
    · rw [hd, hd1, hb1]
      by_cases hr : (g1.buttonInputs i).CurrentState = level n
      · rcases Nat.eq_zero_or_pos n with hz | hpos
        · subst hz
          rw [hc1, if_pos rfl] at hr
          rcases h0 with hs | hne
          · rw [← hs, hr]
            simp
          · exact absurd hr.symm hne
        · have h2 := halt (n - 1) (by omega)
          have h3 : n - 1 + 1 = n := by omega
          rw [h3] at h2
          rw [hc1, if_neg (by omega), h2] at hr
          cases h4 : level (n - 1) <;> rw [h4] at hr <;> exact absurd hr (by decide)
      · rw [if_neg hr, uintSub_self]
        have : ¬ (g.buttons i).DebouncePeriod ≤ ((0 : Nat) : Int) := by
          simp only [Nat.cast_zero]
          omega
        rw [if_neg this]

theorem notifications_append (xs ys : List Event) :
    notifications (xs ++ ys) = notifications xs ++ notifications ys := by
  induction xs with
  | nil => rfl
  | cons e rest ih => cases e <;> simp [notifications, ih]

theorem activations_append (i : Fin BUTTON_INSTANCES) (xs ys : List Event) :
    activations i (xs ++ ys) = activations i xs + activations i ys := by
  induction xs with
  | nil => simp [activations]
  | cons e rest ih => cases e <;> simp [activations, ih, Nat.add_assoc]

theorem wrapInt64_succ (x : Int) : wrapInt64 (wrapInt64 x + 1) = wrapInt64 (x + 1) := by
  simp only [wrapInt64]
  omega

/-- How often one `ButtonObject_Update` call notifies channel `i`. -/
theorem ButtonObject_Update_count (g : Globals) (i : Fin BUTTON_INSTANCES) :
    (notifications (ButtonObject_Update g).2).count i =
      if (g.buttons i).State = (g.buttonInputs i).DebouncedState then 0 else 1 := by
  rw [ButtonObject_Update_notifications, finRange_instances]
  cases h0 : (g.buttons 0).State <;> cases d0 : (g.buttonInputs 0).DebouncedState <;>
  cases h1 : (g.buttons 1).State <;> cases d1 : (g.buttonInputs 1).DebouncedState <;>
  fin_cases i <;> simp [List.filter, h0, h1, d0, d1]

/-- How often one `ButtonObject_Update` call reports channel `i` as active. -/
theorem ButtonObject_Update_activations (g : Globals) (i : Fin BUTTON_INSTANCES) :
    activations i (ButtonObject_Update g).2 =
      if (g.buttons i).State = false ∧ (g.buttonInputs i).DebouncedState = true
      then 1 else 0 := by
  rw [ButtonObject_Update_events]
  cases h0 : (g.buttons 0).State <;> cases d0 : (g.buttonInputs 0).DebouncedState <;>
  cases h1 : (g.buttons 1).State <;> cases d1 : (g.buttonInputs 1).DebouncedState <;>
  fin_cases i <;> simp [activations, h0, h1, d0, d1]

/-- Every call that does not fault keeps the trace invariant. -/
theorem stepCall_traceInvariant (i : Fin BUTTON_INSTANCES) (c : Call)
    (p q : Globals × List Event) (hinv : traceInvariant i p) (h : stepCall c p = some q) :
    traceInvariant i q := by
  cases c with
  | Input tick buttonID inputState =>
    simp only [stepCall] at h
    cases h1 : ButtonObject_Input tick tick buttonID inputState p.1 with
    | none => simp [h1] at h
    | some g1 =>
      rw [h1] at h
      simp only [Option.map_some', Option.some.injEq] at h
      subst h
      have hb := ButtonObject_Input_buttons tick tick buttonID inputState p.1 g1 h1
      simpa [traceInvariant, hb] using hinv
  | Update =>
    simp only [stepCall, Option.some.injEq] at h
    subst h
    obtain ⟨hn, hc⟩ := hinv
    simp only [traceInvariant, notifications_append, activations_append, List.count_append,
      ButtonObject_Update_count, ButtonObject_Update_activations, ButtonObject_Update_State,
      ButtonObject_Update_Counter]
    cases hs : (p.1.buttons i).State <;> cases hd : (p.1.buttonInputs i).DebouncedState <;>
    simp [hs, hd] at hn ⊢ <;> refine ⟨by omega, ?_⟩
    · exact hc
    · rw [hc, wrapInt64_succ]
    · exact hc
    · exact hc
  | WriteDebouncePeriod index value =>
    simp only [stepCall, Option.some.injEq] at h
    subst h
    obtain ⟨hn, hc⟩ := hinv
    refine ⟨?_, ?_⟩
    · by_cases hi : i = index
      · subst hi
        simpa [writeDebouncePeriod, setButton] using hn
      · simpa [writeDebouncePeriod, setButton, Function.update, hi] using hn
    · by_cases hi : i = index
      · subst hi
        simpa [writeDebouncePeriod, setButton] using hc
      · simpa [writeDebouncePeriod, setButton, Function.update, hi] using hc

/-- Every run that does not fault keeps the trace invariant. -/
theorem runCalls_traceInvariant (i : Fin BUTTON_INSTANCES) (cs : List Call)
    (p q : Globals × List Event) (hinv : traceInvariant i p) (h : runCalls cs p = some q) :
    traceInvariant i q := by
  induction cs generalizing p with
  | nil =>
    simp only [runCalls, Option.some.injEq] at h
    subst h
    exact hinv
  | cons c rest ih =>
    simp only [runCalls] at h
    cases h1 : stepCall c p with
    | none => simp [h1] at h
    | some p1 =>
      rw [h1, Option.some_bind] at h
      exact ih p1 (stepCall_traceInvariant i c p p1 hinv h1) h

/-- A run in which no `ButtonObject_Input` call has a negative button id does
not fault. -/
theorem runCalls_total (cs : List Call) (p : Globals × List Event)
    (hid : ∀ tick buttonID inputState, Call.Input tick buttonID inputState ∈ cs → 0 ≤ buttonID) :
    ∃ q, runCalls cs p = some q := by
  induction cs generalizing p with
  | nil => exact ⟨p, rfl⟩
  | cons c rest ih =>
    have hrest : ∀ tick buttonID inputState,
        Call.Input tick buttonID inputState ∈ rest → 0 ≤ buttonID :=
      fun t b l hm => hid t b l (List.mem_cons_of_mem _ hm)
    cases c with
    | Input tick buttonID inputState =>
      obtain ⟨g1, h1, _⟩ := ButtonObject_Input_nonneg tick tick buttonID inputState p.1
        (hid tick buttonID inputState (List.mem_cons_self _ _))
      obtain ⟨q, hq⟩ := ih (g1, p.2) hrest
      exact ⟨q, by simp only [runCalls, stepCall, h1, Option.map_some', Option.some_bind]; exact hq⟩
    | Update =>
      obtain ⟨q, hq⟩ := ih ((ButtonObject_Update p.1).1, p.2 ++ (ButtonObject_Update p.1).2) hrest
      exact ⟨q, by simp only [runCalls, stepCall, Option.some_bind]; exact hq⟩
    | WriteDebouncePeriod index value =>
      obtain ⟨q, hq⟩ := ih (writeDebouncePeriod p.1 index value, p.2) hrest
      exact ⟨q, by simp only [runCalls, stepCall, Option.some_bind]; exact hq⟩

/-- A run that contains a `ButtonObject_Input` call with a negative button id
faults: at that call, if not before. -/
theorem runCalls_negative_faults (cs : List Call) (p : Globals × List Event)
    (hneg : ∃ tick buttonID inputState,
      Call.Input tick buttonID inputState ∈ cs ∧ buttonID < 0) :
    runCalls cs p = none := by
  induction cs generalizing p with
  | nil =>
    obtain ⟨_, _, _, hm, _⟩ := hneg
    exact absurd hm (List.not_mem_nil _)
  | cons c rest ih =>
    obtain ⟨tick, buttonID, inputState, hm, hlt⟩ := hneg
    simp only [runCalls]
    rcases List.mem_cons.mp hm with hc | hr
    · subst hc
      simp [stepCall, ButtonObject_Input_negative tick tick buttonID inputState p.1 hlt]
    · cases h1 : stepCall c p with
      | none => rfl
      | some p1 =>
        rw [Option.some_bind]
        exact ih p1 ⟨tick, buttonID, inputState, hr, hlt⟩

/-! ## The claims -/

/-- C1, debounce acceptance. A valid channel `i` with threshold `T`
(`0 ≤ T < 2^32`) is fed the level `L`, new to it (different from its
`CurrentState` and from its `DebouncedState`), by the calls number `0..k` made
at the ticks `tick 0, ..., tick k`, whose elapsed times `(tick j - tick 0) mod
2^32` are non-decreasing. No call faults, and after call `k` the
`DebouncedState` is `L` exactly when some call `j ≤ k` was made at an elapsed
time `≥ T`; with the elapsed times non-decreasing this is exactly when call `k`
itself is at an elapsed time `≥ T`: the level is accepted at the first call at
tick `≥ tick 0 + T` and not before. -/
theorem C1_debounce_acceptance (g : Globals) (i : Fin BUTTON_INSTANCES) (T : Int) (L : Bool)
    (tick : Nat → Nat) (k : Nat)
    (hT : (g.buttons i).DebouncePeriod = T) (_hT0 : 0 ≤ T) (_hT1 : T < 4294967296)
    (hraw : (g.buttonInputs i).CurrentState ≠ L)
    (hdeb : (g.buttonInputs i).DebouncedState ≠ L)
    (hmono : ∀ j, j < k → uintSub (tick j) (tick 0) ≤ uintSub (tick (j + 1)) (tick 0)) :
    ∃ g2, inputRun (i.val : Int) (samples tick (fun _ => L) (k + 1)) g = some g2 ∧
      ((g2.buttonInputs i).DebouncedState = L ↔
        ∃ j, j ≤ k ∧ T ≤ ((uintSub (tick j) (tick 0) : Nat) : Int)) ∧
      ((g2.buttonInputs i).DebouncedState = L ↔
        T ≤ ((uintSub (tick k) (tick 0) : Nat) : Int)) := by
  obtain ⟨g2, h, _, _, _, hd⟩ := inputRun_constant_level g i L tick k hraw hdeb
  rw [hT] at hd
  refine ⟨g2, h, hd, hd.trans ⟨?_, fun h2 => ⟨k, le_refl k, h2⟩⟩⟩
  rintro ⟨j, hj, hj2⟩
  have := elapsed_le_last tick k hmono j hj
  omega

/-- C1 at a concrete input: the start-up storage (threshold 100), button 0,
level `true`, calls at the ticks 0, 60 and 120. -/
theorem C1_debounce_acceptance_witness :
    ∃ g2, inputRun ((0 : Fin BUTTON_INSTANCES).val : Int)
        (samples (fun j => 60 * j) (fun _ => true) (2 + 1)) startGlobals = some g2 ∧
      ((g2.buttonInputs 0).DebouncedState = true ↔
        ∃ j, j ≤ 2 ∧ (100 : Int) ≤ ((uintSub (60 * j) (60 * 0) : Nat) : Int)) ∧
      ((g2.buttonInputs 0).DebouncedState = true ↔
        (100 : Int) ≤ ((uintSub (60 * 2) (60 * 0) : Nat) : Int)) :=
  C1_debounce_acceptance startGlobals 0 100 true (fun j => 60 * j) 2
    (by simp [startGlobals, ButtonObject_Create_storage]) (by decide) (by decide)
    (by simp [startGlobals, ButtonObject_Create_storage])
    (by simp [startGlobals, ButtonObject_Create_storage])
    (by intro j hj; interval_cases j <;> simp [uintSub, UINT_MOD])

/-- C2, debounce stability window. A channel fresh from `ButtonObject_Create`
whose threshold is then written to `T ≥ 1` is fed `n` calls whose levels
strictly alternate and whose consecutive ticks are less than `T` apart. No call
faults and the `DebouncedState` after the `n` calls is still `false`; `n` is
arbitrary, so it is `false` after every call of the stream. -/
theorem C2_stability_window (awa : AwaRegistry) (g0 : Globals) (i : Fin BUTTON_INSTANCES)
    (T : Int) (tick : Nat → Nat) (level : Nat → Bool) (n : Nat)
    (hT : 1 ≤ T)
    (halt : ∀ j, j + 1 < n → level (j + 1) = !level j)
    (_hgap : ∀ j, j + 1 < n → ((uintSub (tick (j + 1)) (tick j) : Nat) : Int) < T) :
    ∃ g2, inputRun (i.val : Int) (samples tick level n)
        (writeDebouncePeriod (ButtonObject_Create awa g0).1 i T) = some g2 ∧
      (g2.buttonInputs i).DebouncedState = false := by
  obtain ⟨g2, h, _, hd, _⟩ :=
    inputRun_alternating (writeDebouncePeriod (ButtonObject_Create awa g0).1 i T) i tick level n
      (by simp [writeDebouncePeriod, setButton, hT])
      (by simp [writeDebouncePeriod, setButton, ButtonObject_Create_storage])
      (by simp [writeDebouncePeriod, setButton, ButtonObject_Create_storage])
      halt
  exact ⟨g2, h, hd⟩

/-- C2 at a concrete input: threshold 100 on button 1, four calls at the
ticks 0, 30, 60, 90 with the levels true, false, true, false. -/
theorem C2_stability_window_witness :
    ∃ g2, inputRun ((1 : Fin BUTTON_INSTANCES).val : Int)
        (samples (fun j => 30 * j) (fun j => decide (j % 2 = 0)) 4)
        (writeDebouncePeriod (ButtonObject_Create awaAccept zeroGlobals).1 1 100) = some g2 ∧
      (g2.buttonInputs 1).DebouncedState = false :=
  C2_stability_window awaAccept zeroGlobals 1 100 (fun j => 30 * j)
    (fun j => decide (j % 2 = 0)) 4 (by decide)
    (by intro j hj; have hj3 : j < 3 := by omega
        interval_cases j <;> simp)
    (by intro j hj; have hj3 : j < 3 := by omega
        interval_cases j <;> simp [uintSub, UINT_MOD])

/-- C3, the claim as stated fails: with the counter of button 0 at the largest
`AwaInteger`, a reconciliation that publishes false -> true does not leave the
counter at the old value plus one; it wraps to the smallest value. -/
theorem C3_counter_overflow_counterexample :
    (overflowGlobals.buttons 0).State = false ∧
    ((ButtonObject_Update overflowGlobals).1.buttons 0).State = true ∧
    ((ButtonObject_Update overflowGlobals).1.buttons 0).Counter
      ≠ (overflowGlobals.buttons 0).Counter + 1 ∧
    ((ButtonObject_Update overflowGlobals).1.buttons 0).Counter = -9223372036854775808 := by
  simp [ButtonObject_Update_State, ButtonObject_Update_Counter, overflowGlobals, wrapInt64,
    AWA_INTEGER_MAX]

/-- C3 as amended, edge-only counting up to the width of the counter.
One `ButtonObject_Update` call: when the `State` of channel `i` goes false ->
true the new `Counter` is the old one plus one reduced to the signed 64-bit
range, which is exactly the old one plus one when the old one is an
`AwaInteger` below the largest; in every other case (true -> false included)
`Counter` is unchanged. Three reconciliations `g0`, `g1`, `g2`, the `State` and
`Counter` of the channel untouched in between, over which `State` goes
false -> true -> false -> true: `Counter` goes up by two increments, exactly
`+ 2` when it started as an `AwaInteger` below the largest minus one. -/
theorem C3_edge_only_counting (i : Fin BUTTON_INSTANCES) :
    (∀ g : Globals,
      ((g.buttons i).State = false ∧ ((ButtonObject_Update g).1.buttons i).State = true →
        ((ButtonObject_Update g).1.buttons i).Counter = wrapInt64 ((g.buttons i).Counter + 1) ∧
        (-9223372036854775808 ≤ (g.buttons i).Counter →
          (g.buttons i).Counter < AWA_INTEGER_MAX →
          ((ButtonObject_Update g).1.buttons i).Counter = (g.buttons i).Counter + 1)) ∧
      (¬ ((g.buttons i).State = false ∧ ((ButtonObject_Update g).1.buttons i).State = true) →
        ((ButtonObject_Update g).1.buttons i).Counter = (g.buttons i).Counter)) ∧
    (∀ g0 g1 g2 : Globals,
      (g0.buttons i).State = false →
      ((ButtonObject_Update g0).1.buttons i).State = true →
      (g1.buttons i).State = ((ButtonObject_Update g0).1.buttons i).State →
      (g1.buttons i).Counter = ((ButtonObject_Update g0).1.buttons i).Counter →
      ((ButtonObject_Update g1).1.buttons i).State = false →
      (g2.buttons i).State = ((ButtonObject_Update g1).1.buttons i).State →
      (g2.buttons i).Counter = ((ButtonObject_Update g1).1.buttons i).Counter →
      ((ButtonObject_Update g2).1.buttons i).State = true →
        ((ButtonObject_Update g2).1.buttons i).Counter
          = wrapInt64 (wrapInt64 ((g0.buttons i).Counter + 1) + 1) ∧
        (-9223372036854775808 ≤ (g0.buttons i).Counter →
          (g0.buttons i).Counter + 1 < AWA_INTEGER_MAX →
          ((ButtonObject_Update g2).1.buttons i).Counter = (g0.buttons i).Counter + 2)) := by
  constructor
  · intro g
    rw [ButtonObject_Update_State, ButtonObject_Update_Counter]
    constructor
    · intro h
      rw [if_pos h]
      exact ⟨rfl, fun h1 h2 => wrapInt64_of_range _ (by omega) (by simp only [AWA_INTEGER_MAX] at *; omega)⟩
    · intro h
      rw [if_neg h]
  · intro g0 g1 g2 s0 s0u s1 c1 s1u s2 c2 s2u
    rw [ButtonObject_Update_State] at s0u s1u s2u
    rw [ButtonObject_Update_State] at s1 s2
    rw [ButtonObject_Update_Counter] at c1 c2
    rw [if_pos ⟨s0, s0u⟩] at c1
    have hn : ¬ ((g1.buttons i).State = false ∧ (g1.buttonInputs i).DebouncedState = true) := by
      rw [s1u]
      simp
    rw [if_neg hn] at c2
    rw [ButtonObject_Update_Counter, if_pos ⟨by rw [s2, s1u], s2u⟩, c2, c1]
    refine ⟨rfl, fun h1 h2 => ?_⟩
    simp only [AWA_INTEGER_MAX] at h2
    have e1 : wrapInt64 ((g0.buttons i).Counter + 1) = (g0.buttons i).Counter + 1 :=
      wrapInt64_of_range _ (by omega) (by simp only [AWA_INTEGER_MAX]; omega)
    have e2 : wrapInt64 ((g0.buttons i).Counter + 1 + 1) = (g0.buttons i).Counter + 1 + 1 :=
      wrapInt64_of_range _ (by omega) (by simp only [AWA_INTEGER_MAX]; omega)
    rw [e1, e2]
    omega

/-- C3 as amended at a concrete input: button 0 with `Counter` 5 is published
active, then inactive, then active again; `Counter` ends at 7. -/
theorem C3_edge_only_counting_witness :
    ((ButtonObject_Update (pressGlobals false 6 true)).1.buttons 0).Counter
      = ((pressGlobals false 5 true).buttons 0).Counter + 2 :=
  ((C3_edge_only_counting 0).2 (pressGlobals false 5 true) (pressGlobals true 6 false)
    (pressGlobals false 6 true)
    (by simp [pressGlobals])
    (by simp [ButtonObject_Update_State, pressGlobals])
    (by simp [ButtonObject_Update_State, pressGlobals])
    (by simp [ButtonObject_Update_Counter, pressGlobals, wrapInt64])
    (by simp [ButtonObject_Update_State, pressGlobals])
    (by simp [ButtonObject_Update_State, pressGlobals])
    (by simp [ButtonObject_Update_Counter, pressGlobals])
    (by simp [ButtonObject_Update_State, pressGlobals])).2
    (by simp [pressGlobals]) (by simp [pressGlobals, AWA_INTEGER_MAX])

/-- C4, no redundant notification. After one `ButtonObject_Update`, a second
one with no `ButtonObject_Input` in between issues no event at all, hence no
notification, and leaves the storage exactly as the first left it; the first
call notifies each channel at most once. -/
theorem C4_update_idempotent (g : Globals) :
    (ButtonObject_Update (ButtonObject_Update g).1).2 = [] ∧
    notifications (ButtonObject_Update (ButtonObject_Update g).1).2 = [] ∧
    (ButtonObject_Update (ButtonObject_Update g).1).1 = (ButtonObject_Update g).1 ∧
    ∀ i, (notifications (ButtonObject_Update g).2).count i ≤ 1 := by
  have hs : ∀ i, ((ButtonObject_Update g).1.buttons i).State
      = ((ButtonObject_Update g).1.buttonInputs i).DebouncedState := by
    intro i
    rw [ButtonObject_Update_State, ButtonObject_Update_buttonInputs]
  have he : (ButtonObject_Update (ButtonObject_Update g).1).2 = [] := by
    rw [ButtonObject_Update_events, if_pos (hs 0), if_pos (hs 1)]
    rfl
  refine ⟨he, by rw [he]; rfl, ?_, ?_⟩
  · rw [ButtonObject_Update_storage (ButtonObject_Update g).1]
    ext j : 2
    · simp [hs j]
    · rfl
  · intro i
    rw [ButtonObject_Update_notifications]
    exact List.nodup_iff_count_le_one.mp ((List.nodup_finRange _).filter _) i

/-- C5, evaluation of the code on a negative button id: the guard
`buttonID < BUTTON_INSTANCES` lets it through and the call indexes
`buttonInputs` outside the array. -/
theorem C5_negative_id_out_of_range (tickStart tickNow : Nat) (buttonID : Int) (L : Bool)
    (g : Globals) (hneg : buttonID < 0) :
    ButtonObject_Input tickStart tickNow buttonID L g = none := by
  have h1 : buttonID < (BUTTON_INSTANCES : Int) := by
    have : ((BUTTON_INSTANCES : Nat) : Int) = 2 := rfl
    omega
  have h2 : ¬ (0 ≤ buttonID ∧ buttonID < (BUTTON_INSTANCES : Int)) := by omega
  unfold ButtonObject_Input arrayIndex
  rw [if_pos h1, dif_neg h2]

/-- C5 at the failing input: button id `-1` on the start-up storage. -/
theorem C5_negative_id_out_of_range_witness :
    ButtonObject_Input 0 0 (-1) true startGlobals = none :=
  C5_negative_id_out_of_range 0 0 (-1) true startGlobals (by decide)

/-- C6, wraparound safety. Channel `i` holds the raw level `L`, not yet
accepted, since the tick `s = StartTime`; a call with level `L` is
made `d < 2^32` ticks later, at the tick `(s + d) mod 2^32`, the threshold
being `T` with `0 ≤ T < 2^32`. The elapsed time the call computes is exactly
`d`, also when `s + d` has wrapped past zero, and the call sets `DebouncedState`
to `L` exactly when `d ≥ T`. -/
theorem C6_wraparound_safety (g : Globals) (i : Fin BUTTON_INSTANCES) (L : Bool) (d : Nat)
    (T : Int)
    (hd : d < UINT_MOD)
    (hT : (g.buttons i).DebouncePeriod = T) (_hT0 : 0 ≤ T) (_hT1 : T < 4294967296)
    (hraw : (g.buttonInputs i).CurrentState = L)
    (hdeb : (g.buttonInputs i).DebouncedState ≠ L) :
    uintSub (((g.buttonInputs i).StartTime + d) % UINT_MOD) (g.buttonInputs i).StartTime = d ∧
    ∃ g2, ButtonObject_Input (((g.buttonInputs i).StartTime + d) % UINT_MOD)
        (((g.buttonInputs i).StartTime + d) % UINT_MOD) (i.val : Int) L g = some g2 ∧
      ((g2.buttonInputs i).DebouncedState = L ↔ T ≤ (d : Int)) := by
  have he : uintSub (((g.buttonInputs i).StartTime + d) % UINT_MOD)
      (g.buttonInputs i).StartTime = d := by
    simp only [uintSub, UINT_MOD] at *
    omega
  refine ⟨he, ?_⟩
  obtain ⟨g2, h, _, _, _, _, hdd⟩ := ButtonObject_Input_valid
    (((g.buttonInputs i).StartTime + d) % UINT_MOD)
    (((g.buttonInputs i).StartTime + d) % UINT_MOD) i L g
  refine ⟨g2, h, ?_⟩
  rw [hdd, if_pos hraw, he, hT]
  by_cases hc : T ≤ (d : Int)
  · simp [hc]
  · simp [hc, hdeb]

/-- C6 at a concrete input: raw level `true` since tick `2^32 - 10`, the call
110 ticks later, at tick 100 after the wraparound, threshold 100. -/
theorem C6_wraparound_safety_witness :
    uintSub (((wrapGlobals.buttonInputs 0).StartTime + 110) % UINT_MOD)
        (wrapGlobals.buttonInputs 0).StartTime = 110 ∧
    ∃ g2, ButtonObject_Input (((wrapGlobals.buttonInputs 0).StartTime + 110) % UINT_MOD)
        (((wrapGlobals.buttonInputs 0).StartTime + 110) % UINT_MOD)
        ((0 : Fin BUTTON_INSTANCES).val : Int) true wrapGlobals = some g2 ∧
      ((g2.buttonInputs 0).DebouncedState = true ↔ (100 : Int) ≤ ((110 : Nat) : Int)) :=
  C6_wraparound_safety wrapGlobals 0 true 110 100
    (by decide) (by simp [wrapGlobals]) (by decide) (by decide)
    (by simp [wrapGlobals]) (by simp [wrapGlobals])

/-- C7, reconciliation postcondition. One `ButtonObject_Update` call notifies
exactly the channels whose `DebouncedState` differed from `State` before the
call, in index order, each of them once and no other channel; after the call
`State` equals `DebouncedState` on every channel. -/
theorem C7_update_postcondition (g : Globals) :
    notifications (ButtonObject_Update g).2 =
      (List.finRange BUTTON_INSTANCES).filter
        (fun i => (g.buttons i).State != (g.buttonInputs i).DebouncedState) ∧
    (∀ i, (notifications (ButtonObject_Update g).2).count i =
      if (g.buttons i).State = (g.buttonInputs i).DebouncedState then 0 else 1) ∧
    (∀ i, ((ButtonObject_Update g).1.buttons i).State
      = ((ButtonObject_Update g).1.buttonInputs i).DebouncedState) := by
  refine ⟨ButtonObject_Update_notifications g, ?_, ?_⟩
  · intro i
    rw [ButtonObject_Update_notifications, finRange_instances]
    cases h0 : (g.buttons 0).State <;> cases d0 : (g.buttonInputs 0).DebouncedState <;>
    cases h1 : (g.buttons 1).State <;> cases d1 : (g.buttonInputs 1).DebouncedState <;>
    fin_cases i <;> simp [List.filter, h0, h1, d0, d1]
  · intro i
    rw [ButtonObject_Update_State, ButtonObject_Update_buttonInputs]

/-- C8, the end-to-end scenario. From the storage `ButtonObject_Create` leaves
(threshold 100), channel `c` is fed (tick 0, true), (tick 30, false),
(tick 40, true), (tick 145, true). No call faults; `DebouncedState` of `c` is
`false` after each of the first three calls and `true` after the fourth. The
`ButtonObject_Update` that follows leaves `State = true` and `Counter = 1` on
`c`, issues exactly one notification, for `c`, and the other channel is as
`ButtonObject_Create` left it. -/
theorem C8_end_to_end (awa : AwaRegistry) (g0 : Globals) (c : Fin BUTTON_INSTANCES) :
    ∃ g1 g2 g3 g4,
      ButtonObject_Input 0 0 (c.val : Int) true (ButtonObject_Create awa g0).1 = some g1 ∧
      (g1.buttonInputs c).DebouncedState = false ∧
      ButtonObject_Input 30 30 (c.val : Int) false g1 = some g2 ∧
      (g2.buttonInputs c).DebouncedState = false ∧
      ButtonObject_Input 40 40 (c.val : Int) true g2 = some g3 ∧
      (g3.buttonInputs c).DebouncedState = false ∧
      ButtonObject_Input 145 145 (c.val : Int) true g3 = some g4 ∧
      (g4.buttonInputs c).DebouncedState = true ∧
      ((ButtonObject_Update g4).1.buttons c).State = true ∧
      ((ButtonObject_Update g4).1.buttons c).Counter = 1 ∧
      notifications (ButtonObject_Update g4).2 = [c] ∧
      ∀ j, j ≠ c →
        (ButtonObject_Update g4).1.buttons j = (ButtonObject_Create awa g0).1.buttons j ∧
        (ButtonObject_Update g4).1.buttonInputs j
          = (ButtonObject_Create awa g0).1.buttonInputs j := by
  rw [ButtonObject_Create_storage]
  fin_cases c
  · refine ⟨_, _, _, _, rfl, rfl, rfl, rfl, rfl, rfl, rfl, rfl, rfl, rfl, rfl, ?_⟩
    intro j hj
    fin_cases j
    · exact absurd rfl hj
    · exact ⟨rfl, rfl⟩
  · refine ⟨_, _, _, _, rfl, rfl, rfl, rfl, rfl, rfl, rfl, rfl, rfl, rfl, rfl, ?_⟩
    intro j hj
    fin_cases j
    · exact ⟨rfl, rfl⟩
    · exact absurd rfl hj

/-- C9, idempotent initialization. Whatever the storage held before and
whatever the registry answers, after `ButtonObject_Create` every channel has
`State = false`, `Counter = 0`, `DebouncePeriod = 100`, `CurrentState = false`,
`DebouncedState = false` and `StartTime = 0`; running it a second time gives the
storage of running it once. -/
theorem C9_create_resets (awa awa2 : AwaRegistry) (g : Globals) :
    (∀ i, (ButtonObject_Create awa g).1.buttons i
        = { State := false, Counter := 0, DebouncePeriod := 100 } ∧
      (ButtonObject_Create awa g).1.buttonInputs i
        = { CurrentState := false, DebouncedState := false, StartTime := 0 }) ∧
    (ButtonObject_Create awa2 (ButtonObject_Create awa g).1).1 = (ButtonObject_Create awa g).1 := by
  constructor
  · intro i
    rw [ButtonObject_Create_storage]
    exact ⟨rfl, rfl⟩
  · rw [ButtonObject_Create_storage, ButtonObject_Create_storage]

/-- C10, the claim as stated fails: a registry that reports failure for the
first call, `DefineObject`, and every later one, still receives all fifteen
registration calls, and the storage is initialized as with a registry that
accepts every call. -/
theorem C10_create_continues_counterexample :
    (ButtonObject_Create awaReject zeroGlobals).2.head?
      = some (AwaCall.DefineObject 3311 "Button" 0 2) ∧
    awaReject [] (AwaCall.DefineObject 3311 "Button" 0 2) ≠ AwaError.Success ∧
    (ButtonObject_Create awaReject zeroGlobals).2.length = 15 ∧
    (ButtonObject_Create awaReject zeroGlobals).1
      = (ButtonObject_Create awaAccept zeroGlobals).1 := by
  refine ⟨?_, ?_, ?_, ?_⟩
  · rw [ButtonObject_Create_calls]
    rfl
  · simp [awaReject]
  · rw [ButtonObject_Create_calls]
    rfl
  · rw [ButtonObject_Create_storage, ButtonObject_Create_storage]

/-- C10 as amended. `ButtonObject_Create` does not look at what the registry
reports: for every registry and every prior storage it makes the same fifteen
registration calls in the same order, all of them, and leaves the same
initialized storage; it returns nothing to the caller. -/
theorem C10_create_ignores_failures (awa : AwaRegistry) (g : Globals) :
    (ButtonObject_Create awa g).2 = registrationCalls ∧
    (ButtonObject_Create awa g).2.length = 15 ∧
    (ButtonObject_Create awa g).1 = (ButtonObject_Create awaAccept g).1 := by
  refine ⟨ButtonObject_Create_calls awa g, ?_, ?_⟩
  · rw [ButtonObject_Create_calls]
    rfl
  · rw [ButtonObject_Create_storage, ButtonObject_Create_storage]

/-- C11, the debounced state changes only after a full stability window. One
`ButtonObject_Input` call with level `L` at tick `now` on a valid channel `i`
with threshold `T ≥ 0` does not fault. If it changes `DebouncedState`, the new
value is `L`, which is also the `CurrentState` after the call, and the elapsed
time `(now - StartTime) mod 2^32`, with the `StartTime` the call leaves, is
`≥ T`. If that elapsed time is `< T`, `DebouncedState` is unchanged. -/
theorem C11_change_needs_full_window (g : Globals) (i : Fin BUTTON_INSTANCES) (T : Int)
    (L : Bool) (now : Nat)
    (hT : (g.buttons i).DebouncePeriod = T) (_hT0 : 0 ≤ T) :
    ∃ g2, ButtonObject_Input now now (i.val : Int) L g = some g2 ∧
      ((g2.buttonInputs i).DebouncedState ≠ (g.buttonInputs i).DebouncedState →
        (g2.buttonInputs i).DebouncedState = L ∧
        (g2.buttonInputs i).DebouncedState = (g2.buttonInputs i).CurrentState ∧
        T ≤ ((uintSub now (g2.buttonInputs i).StartTime : Nat) : Int)) ∧
      (((uintSub now (g2.buttonInputs i).StartTime : Nat) : Int) < T →
        (g2.buttonInputs i).DebouncedState = (g.buttonInputs i).DebouncedState) := by
  obtain ⟨g2, h, _, _, hc, hs, hd⟩ := ButtonObject_Input_valid now now i L g
  rw [← hs, hT] at hd
  refine ⟨g2, h, ?_, ?_⟩
  · intro hne
    by_cases hc2 : T ≤ ((uintSub now (g2.buttonInputs i).StartTime : Nat) : Int)
    · rw [if_pos hc2] at hd
      exact ⟨hd, by rw [hd, hc], hc2⟩
    · rw [if_neg hc2] at hd
      exact absurd hd hne
  · intro hlt
    rw [if_neg (by omega)] at hd
    exact hd

/-- C11 at a concrete input: the start-up storage (threshold 100), button 0,
level `true` at tick 7. -/
theorem C11_change_needs_full_window_witness :
    ∃ g2, ButtonObject_Input 7 7 ((0 : Fin BUTTON_INSTANCES).val : Int) true startGlobals
        = some g2 ∧
      ((g2.buttonInputs 0).DebouncedState ≠ (startGlobals.buttonInputs 0).DebouncedState →
        (g2.buttonInputs 0).DebouncedState = true ∧
        (g2.buttonInputs 0).DebouncedState = (g2.buttonInputs 0).CurrentState ∧
        (100 : Int) ≤ ((uintSub 7 (g2.buttonInputs 0).StartTime : Nat) : Int)) ∧
      (((uintSub 7 (g2.buttonInputs 0).StartTime : Nat) : Int) < 100 →
        (g2.buttonInputs 0).DebouncedState = (startGlobals.buttonInputs 0).DebouncedState) :=
  C11_change_needs_full_window startGlobals 0 100 true 7
    (by simp [startGlobals, ButtonObject_Create_storage]) (by decide)

/-- C12, frame of sampling, evaluated on the code. A `ButtonObject_Input` call
whose button id is not negative does not fault, leaves `buttons` (`State`,
`Counter`, `DebouncePeriod` of every channel) unchanged and leaves
`CurrentState`, `StartTime`, `DebouncedState` of every channel other than
`buttonID` unchanged; it has no event output, the function calls only the
timer. A call whose button id is negative passes the guard of line 102 and
indexes the arrays outside their bounds, so nothing is left unchanged by it. -/
theorem C12_frame_of_sampling (tickStart tickNow : Nat) (buttonID : Int) (L : Bool)
    (g : Globals) :
    (0 ≤ buttonID →
      ∃ g2, ButtonObject_Input tickStart tickNow buttonID L g = some g2 ∧
        g2.buttons = g.buttons ∧
        ∀ j : Fin BUTTON_INSTANCES, (j.val : Int) ≠ buttonID →
          g2.buttonInputs j = g.buttonInputs j) ∧
    (buttonID < 0 → ButtonObject_Input tickStart tickNow buttonID L g = none) :=
  ⟨ButtonObject_Input_nonneg tickStart tickNow buttonID L g,
   ButtonObject_Input_negative tickStart tickNow buttonID L g⟩

/-- C12 at the failing input: button id `-1`, level `true`, on the start-up
storage. -/
theorem C12_frame_of_sampling_witness :
    ButtonObject_Input 5 5 (-1) true startGlobals = none :=
  (C12_frame_of_sampling 5 5 (-1) true startGlobals).2 (by decide)

/-- C13, frame of reconciliation. `ButtonObject_Update` leaves the whole of
`buttonInputs` (`CurrentState`, `StartTime`, `DebouncedState` of every channel)
and every `DebouncePeriod` unchanged, and leaves `State` and `Counter` unchanged
too on every channel whose `DebouncedState` equalled its `State`. -/
theorem C13_frame_of_update (g : Globals) :
    (ButtonObject_Update g).1.buttonInputs = g.buttonInputs ∧
    (∀ i, ((ButtonObject_Update g).1.buttons i).DebouncePeriod = (g.buttons i).DebouncePeriod) ∧
    (∀ i, (g.buttons i).State = (g.buttonInputs i).DebouncedState →
      (ButtonObject_Update g).1.buttons i = g.buttons i) := by
  refine ⟨ButtonObject_Update_buttonInputs g, ButtonObject_Update_DebouncePeriod g, ?_⟩
  intro i h
  rw [ButtonObject_Update_storage]
  simp [h]

/-- C14, the stability window restarts on every raw edge. One
`ButtonObject_Input` call with level `L` at tick `now` (a `uint`) on a valid
channel does not fault and leaves `CurrentState = L`; when `L` differed from the
previous `CurrentState` it leaves `StartTime = now`, whatever happens to
`DebouncedState`; when `L` equalled it, `StartTime` is unchanged. -/
theorem C14_window_restarts_on_edge (g : Globals) (i : Fin BUTTON_INSTANCES) (L : Bool)
    (now : Nat) (hnow : now < UINT_MOD) :
    ∃ g2, ButtonObject_Input now now (i.val : Int) L g = some g2 ∧
      (g2.buttonInputs i).CurrentState = L ∧
      ((g.buttonInputs i).CurrentState ≠ L → (g2.buttonInputs i).StartTime = now) ∧
      ((g.buttonInputs i).CurrentState = L →
        (g2.buttonInputs i).StartTime = (g.buttonInputs i).StartTime) := by
  obtain ⟨g2, h, _, _, hc, hs, _⟩ := ButtonObject_Input_valid now now i L g
  refine ⟨g2, h, hc, ?_, ?_⟩
  · intro hne
    rw [hs, if_neg hne]
    exact Nat.mod_eq_of_lt hnow
  · intro heq
    rw [hs, if_pos heq]

/-- C14 at a concrete input: the start-up storage, button 1, level `true` at
tick 30. -/
theorem C14_window_restarts_on_edge_witness :
    ∃ g2, ButtonObject_Input 30 30 ((1 : Fin BUTTON_INSTANCES).val : Int) true startGlobals
        = some g2 ∧
      (g2.buttonInputs 1).CurrentState = true ∧
      ((startGlobals.buttonInputs 1).CurrentState ≠ true → (g2.buttonInputs 1).StartTime = 30) ∧
      ((startGlobals.buttonInputs 1).CurrentState = true →
        (g2.buttonInputs 1).StartTime = (startGlobals.buttonInputs 1).StartTime) :=
  C14_window_restarts_on_edge startGlobals 1 true 30 (by decide)

/-- C15, a sample that changes the raw state is never accepted in the same
call when the threshold is positive. On a valid channel `i` with threshold
`≥ 1`: a `ButtonObject_Input` call whose level differs from `CurrentState`, both
timer reads returning `now`, does not fault and leaves `DebouncedState`
unchanged. Hence `n` calls with strictly alternating levels and arbitrary
ticks, on a channel that is settled (`CurrentState = DebouncedState`, as after
`ButtonObject_Create`) or whose first sample changes the raw state, leave
`DebouncedState` unchanged: no bound on the gaps is needed. -/
theorem C15_raw_change_not_accepted (g : Globals) (i : Fin BUTTON_INSTANCES)
    (hT : 1 ≤ (g.buttons i).DebouncePeriod) :
    (∀ (now : Nat) (L : Bool), (g.buttonInputs i).CurrentState ≠ L →
      ∃ g2, ButtonObject_Input now now (i.val : Int) L g = some g2 ∧
        (g2.buttonInputs i).DebouncedState = (g.buttonInputs i).DebouncedState) ∧
    (∀ (tick : Nat → Nat) (level : Nat → Bool) (n : Nat),
      ((g.buttonInputs i).CurrentState = (g.buttonInputs i).DebouncedState ∨
        level 0 ≠ (g.buttonInputs i).CurrentState) →
      (∀ j, j + 1 < n → level (j + 1) = !level j) →
      ∃ g2, inputRun (i.val : Int) (samples tick level n) g = some g2 ∧
        (g2.buttonInputs i).DebouncedState = (g.buttonInputs i).DebouncedState) := by
  constructor
  · intro now L hne
    obtain ⟨g2, h, _, _, _, _, hd⟩ := ButtonObject_Input_valid now now i L g
    refine ⟨g2, h, ?_⟩
    have : ¬ (g.buttons i).DebouncePeriod ≤ ((0 : Nat) : Int) := by
      simp only [Nat.cast_zero]
      omega
    rw [hd, if_neg hne, uintSub_self, if_neg this]
  · intro tick level n h0 halt
    obtain ⟨g2, h, _, hd, _⟩ := inputRun_alternating_any_ticks g i tick level n hT h0 halt
    exact ⟨g2, h, hd⟩

/-- C15 at a concrete input: the start-up storage (threshold 100), button 0,
five alternating samples one thousand ticks apart. -/
theorem C15_raw_change_not_accepted_witness :
    ∃ g2, inputRun ((0 : Fin BUTTON_INSTANCES).val : Int)
        (samples (fun j => 1000 * j) (fun j => decide (j % 2 = 0)) 5) startGlobals = some g2 ∧
      (g2.buttonInputs 0).DebouncedState = (startGlobals.buttonInputs 0).DebouncedState :=
  (C15_raw_change_not_accepted startGlobals 0
    (by simp [startGlobals, ButtonObject_Create_storage])).2
    (fun j => 1000 * j) (fun j => decide (j % 2 = 0)) 5
    (Or.inl (by simp [startGlobals, ButtonObject_Create_storage]))
    (by intro j hj; have hj4 : j < 4 := by omega
        interval_cases j <;> simp)

/-- C17, the notification/counter trace invariant, evaluated on the code.
Start from the storage `ButtonObject_Create` leaves and no event, and make any
finite sequence of `ButtonObject_Input` calls, `ButtonObject_Update` calls and
external writes to `DebouncePeriod`.
When no `ButtonObject_Input` call of the sequence has a negative button id, the
run does not fault, and for every channel `i`: the notifications issued for `i`
number twice the activations reported for `i`, less one when `State` is set;
`Counter` is the number of activations reduced to the width of `AwaInteger`;
and as long as the counter has not overflowed (the activations do not exceed
the largest `AwaInteger`), `Counter` is the number of activations and the
notifications number `2 * Counter - (1 if State else 0)`.
When some `ButtonObject_Input` call of the sequence has a negative button id,
that call passes the guard of line 102 and indexes the arrays outside their
bounds: the run faults and the relation between notifications and `Counter` is
not kept by the code. -/
theorem C17_trace_invariant (awa : AwaRegistry) (g0 : Globals) (calls : List Call)
    (i : Fin BUTTON_INSTANCES) :
    ((∀ tick buttonID inputState,
        Call.Input tick buttonID inputState ∈ calls → 0 ≤ buttonID) →
      ∃ g ev, runCalls calls ((ButtonObject_Create awa g0).1, []) = some (g, ev) ∧
        ((notifications ev).count i : Int)
          = 2 * (activations i ev : Int) - (if (g.buttons i).State then 1 else 0) ∧
        (g.buttons i).Counter = wrapInt64 (activations i ev : Int) ∧
        ((activations i ev : Int) ≤ AWA_INTEGER_MAX →
          (g.buttons i).Counter = (activations i ev : Int) ∧
          ((notifications ev).count i : Int)
            = 2 * (g.buttons i).Counter - (if (g.buttons i).State then 1 else 0))) ∧
    ((∃ tick buttonID inputState,
        Call.Input tick buttonID inputState ∈ calls ∧ buttonID < 0) →
      runCalls calls ((ButtonObject_Create awa g0).1, []) = none) := by
  refine ⟨?_, runCalls_negative_faults calls _⟩
  intro hid
  obtain ⟨q, hq⟩ := runCalls_total calls ((ButtonObject_Create awa g0).1, []) hid
  have hstart : traceInvariant i ((ButtonObject_Create awa g0).1, []) := by
    rw [ButtonObject_Create_storage]
    simp [traceInvariant, notifications, activations, wrapInt64]
  obtain ⟨hn, hc⟩ := runCalls_traceInvariant i calls _ q hstart hq
  refine ⟨q.1, q.2, hq, hn, hc, ?_⟩
  intro hle
  have hw : wrapInt64 (activations i q.2 : Int) = (activations i q.2 : Int) :=
    wrapInt64_of_range _ (by omega) hle
  rw [hw] at hc
  exact ⟨hc, by rw [hc]; exact hn⟩

/-- C17 at concrete inputs. The failing input: after `ButtonObject_Create`, a
`ButtonObject_Input` call for button `-2` at tick 7 followed by a
reconciliation faults. A run with valid ids: button 0 pressed and released,
with a reconciliation after each, keeps the relation. -/
theorem C17_trace_invariant_witness :
    runCalls negativeIdRun ((ButtonObject_Create awaAccept zeroGlobals).1, []) = none ∧
    ∃ g ev, runCalls pressAndRelease ((ButtonObject_Create awaAccept zeroGlobals).1, [])
        = some (g, ev) ∧
      ((notifications ev).count 0 : Int)
        = 2 * (activations 0 ev : Int) - (if (g.buttons 0).State then 1 else 0) ∧
      (g.buttons 0).Counter = wrapInt64 (activations 0 ev : Int) ∧
      ((activations 0 ev : Int) ≤ AWA_INTEGER_MAX →
        (g.buttons 0).Counter = (activations 0 ev : Int) ∧
        ((notifications ev).count 0 : Int)
          = 2 * (g.buttons 0).Counter - (if (g.buttons 0).State then 1 else 0)) :=
  ⟨(C17_trace_invariant awaAccept zeroGlobals negativeIdRun 1).2
      ⟨7, -2, true, by simp [negativeIdRun], by decide⟩,
   (C17_trace_invariant awaAccept zeroGlobals pressAndRelease 0).1
    (by
      intro tick buttonID inputState hmem
      simp only [pressAndRelease, List.mem_cons, Call.Input.injEq, List.mem_singleton,
        List.mem_nil_iff, reduceCtorEq, or_false, false_or] at hmem
      rcases hmem with h | h | h | h <;> omega)⟩

/-- The run of the concrete input of C17, evaluated: two notifications for
button 0, one activation, `Counter = 1`, `State = false`. -/
theorem pressAndRelease_evaluated :
    ∃ g ev, runCalls pressAndRelease ((ButtonObject_Create awaAccept zeroGlobals).1, [])
        = some (g, ev) ∧
      notifications ev = [0, 0] ∧ activations 0 ev = 1 ∧
      (g.buttons 0).Counter = 1 ∧ (g.buttons 0).State = false :=
  ⟨_, _, rfl, rfl, rfl, rfl, rfl⟩

/-- C18, a non-positive threshold disables debouncing. `DebouncePeriod` is a
signed integer and the elapsed time, which is never negative, is compared with
it as a signed value: on a valid channel whose `DebouncePeriod` is `≤ 0`, every
`ButtonObject_Input` call, whatever the storage, the level and the two timer
reads, leaves `DebouncedState` equal to the level of the call. -/
theorem C18_nonpositive_threshold_accepts (g : Globals) (i : Fin BUTTON_INSTANCES) (L : Bool)
    (tickStart tickNow : Nat) (hT : (g.buttons i).DebouncePeriod ≤ 0) :
    ∃ g2, ButtonObject_Input tickStart tickNow (i.val : Int) L g = some g2 ∧
      (g2.buttonInputs i).DebouncedState = L := by
  obtain ⟨g2, h, _, _, _, _, hd⟩ := ButtonObject_Input_valid tickStart tickNow i L g
  refine ⟨g2, h, ?_⟩
  rw [hd, if_pos (by omega)]

/-- C18 at a concrete input: threshold `-5` written to button 0 of the start-up
storage, level `true` at tick 3, a sample that has just changed the raw state. -/
theorem C18_nonpositive_threshold_accepts_witness :
    ∃ g2, ButtonObject_Input 3 3 ((0 : Fin BUTTON_INSTANCES).val : Int) true
        (writeDebouncePeriod startGlobals 0 (-5)) = some g2 ∧
      (g2.buttonInputs 0).DebouncedState = true :=
  C18_nonpositive_threshold_accepts (writeDebouncePeriod startGlobals 0 (-5)) 0 true 3 3
    (by simp [writeDebouncePeriod, setButton])

/-- C19, a threshold beyond the tick width freezes the channel. The elapsed
time is a difference of `uint` values, so it is below `2^32`: on a valid channel
whose `DebouncePeriod` is `≥ 2^32`, every `ButtonObject_Input` call, whatever
the storage, the level and the two timer reads, leaves `DebouncedState`
unchanged. -/
theorem C19_huge_threshold_freezes (g : Globals) (i : Fin BUTTON_INSTANCES) (L : Bool)
    (tickStart tickNow : Nat) (hT : 4294967296 ≤ (g.buttons i).DebouncePeriod) :
    ∃ g2, ButtonObject_Input tickStart tickNow (i.val : Int) L g = some g2 ∧
      (g2.buttonInputs i).DebouncedState = (g.buttonInputs i).DebouncedState := by
  obtain ⟨g2, h, _, _, _, _, hd⟩ := ButtonObject_Input_valid tickStart tickNow i L g
  refine ⟨g2, h, ?_⟩
  have hlt : uintSub tickNow
      (if (g.buttonInputs i).CurrentState = L then (g.buttonInputs i).StartTime
       else tickStart % UINT_MOD) < 4294967296 := uintSub_lt _ _
  rw [hd, if_neg (by omega)]

/-- C19 at a concrete input: threshold `2^32` written to button 0 of a storage
in which the raw level `true` has been held since tick `2^32 - 10`; the call
comes `2^32 - 1` ticks later. -/
theorem C19_huge_threshold_freezes_witness :
    ∃ g2, ButtonObject_Input 4294967285 4294967285 ((0 : Fin BUTTON_INSTANCES).val : Int) true
        (writeDebouncePeriod wrapGlobals 0 4294967296) = some g2 ∧
      (g2.buttonInputs 0).DebouncedState
        = ((writeDebouncePeriod wrapGlobals 0 4294967296).buttonInputs 0).DebouncedState :=
  C19_huge_threshold_freezes (writeDebouncePeriod wrapGlobals 0 4294967296) 0 true
    4294967285 4294967285 (by simp [writeDebouncePeriod, setButton])

end Firmware
